import Mathlib

/-!
Shallow embedding of `weko_itemtypes_ui/views.py` (WEKO3 item-type UI
blueprint).  The module is a set of Flask route handlers over an external
data-access layer (`ItemTypes`, `ItemTypeProps`, `Mapping`), an ORM session
(`db.session.commit` / `rollback`), a permission factory, and the `json`
library.  The external collaborators are modelled as an oracle environment
`Env`; the ORM session is modelled as an explicit transaction state
`DbState` (committed operations, pending operations of the open
transaction, and a log of every data-layer/session call made).  Each
handler becomes a total Lean function from the environment, the request
and the session state to a response (and the new state, for the POST
handlers); an uncaught Python exception in a handler body is the response
`Resp.serverError` (Flask turns it into a 500).
-/

namespace WekoItemtypesUI

/-- A JSON value, as produced by `request.get_json()` / `json.loads`. -/
inductive Json where
  | null
  | bool (b : Bool)
  | num (n : Int)
  | str (s : String)
  | arr (elems : List Json)
  | obj (fields : List (String × Json))

/-- Python exceptions that the handler bodies can raise. -/
inductive PyErr where
  | attributeError
  | typeError
  | valueError
  | other (msg : String)
deriving Repr, DecidableEq

/-- Lookup of a key in a parsed JSON object, with Python semantics: a JSON
`null` value is the Python object `None`, so both a missing key and a
`null` value come back as `none` (as `dict.get` returns them). -/
def jsonLookup (fields : List (String × Json)) (k : String) : Option Json :=
  match fields.lookup k with
  | none => none
  | some Json.null => none
  | some v => some v

/-- Python `x.get(k)` where `x` is a parsed JSON value: a dict answers the
lookup (missing key gives `None`); any non-dict value (list, string,
number, bool) has no `.get` attribute and raises `AttributeError`. -/
def dictGet : Json → String → Except PyErr (Option Json)
  | Json.obj fields, k => Except.ok (jsonLookup fields k)
  | _, _ => Except.error PyErr.attributeError

/-- Python `x.get(k)` where `x` may be `None` (the result of a previous
`.get`): `None.get(k)` raises `AttributeError`. -/
def optGet : Option Json → String → Except PyErr (Option Json)
  | none, _ => Except.error PyErr.attributeError
  | some v, k => dictGet v k

/-- The chained access `data.get(k1).get(k2)` from the source. -/
def optGet2 (data : Json) (k1 k2 : String) : Except PyErr (Option Json) :=
  match dictGet data k1 with
  | Except.error e => Except.error e
  | Except.ok o => optGet o k2

/-- Python `json.loads(x)`: parses a string via the library parser
(which may raise `ValueError` on bad input); any non-string argument,
in particular `None`, raises `TypeError`. -/
def pyLoads (loads : String → Except PyErr (Option Json)) :
    Option Json → Except PyErr (Option Json)
  | some (Json.str s) => loads s
  | _ => Except.error PyErr.typeError

/-- An item-type record as returned by `ItemTypes.get_by_id` /
`get_latest` / `get_all`: the handlers use its `id` (`record.model.id`,
`lists[0].id`) and its `render` attribute. -/
structure ItemTypeRec where
  id : Nat
  render : Json

/-- A property record as returned by `ItemTypeProps.get_record` /
`get_records`: the handlers read `id`, `name`, `schema`, `form`, `forms`. -/
structure PropRec where
  id : Nat
  name : Json
  schema : Json
  form : Json
  forms : Json

/-- A mutating data-layer operation recorded in the ORM transaction. -/
inductive DbOp where
  | itemTypeUpdate (id : Nat) (name schema form : Option Json) (render : Json)
  | mappingCreate (itemTypeId : Option Json) (mapping : Option Json)
  | propCreate (propertyId : Nat) (name schema formSingle formArray : Option Json)

/-- A call made to the data layer or the ORM session (the observable
side-effect trace of a handler). -/
inductive DbCall where
  | op (o : DbOp)
  | commit
  | rollback

/-- The ORM session: operations already committed, operations pending in
the open transaction, and the log of calls made. -/
structure DbState where
  committed : List DbOp
  pending : List DbOp
  calls : List DbCall

/-- `db.session.rollback()`: discards the pending operations. -/
def sessionRollback (st : DbState) : DbState :=
  { st with pending := [], calls := st.calls ++ [DbCall.rollback] }

/-- The oracle environment: the permission factory, the authenticated
flag, and the outcomes of every external-collaborator call the handlers
make.  `perm = none` models `current_permission_factory` being `None`;
`perm = some b` models `factory().can() = b`. -/
structure Env where
  perm : Option Bool
  isAuthenticated : Bool
  getLatest : List ItemTypeRec
  getById : Nat → Option ItemTypeRec
  getAll : Option (List ItemTypeRec)
  getRecords : List PropRec
  getRecord : Nat → Option PropRec
  mappingGetRecord : Nat → Option Json
  updateResult : Except PyErr Nat
  mappingCreateResult : Except PyErr Unit
  propCreateResult : Except PyErr Unit
  commitResult : Except PyErr Unit
  loads : String → Except PyErr (Option Json)
  dumps : Option Json → String

/-- A handler response. -/
inductive Resp where
  | jsonV (v : Json)
  | jsonMsg (msg : String)
  | page (configKey : String)
  | registerPage (configKey : String) (lists : List ItemTypeRec) (id : Nat)
  | propertyPage (configKey : String) (lists : List PropRec)
  | mappingPage (configKey : String) (lists : List ItemTypeRec)
      (mapping : String) (id : Nat)
  | redirectTo (itemTypeId : Nat)
  | httpAbort (status : Nat)
  | serverError (e : PyErr)

/-- Whether a response is an uncaught-exception 500. -/
def Resp.isServerError : Resp → Bool
  | Resp.serverError _ => true
  | _ => false

/-- `check_permission(permission, hidden)`: aborts (`some status`) when a
non-`None` factory yields a falsy authorization — 404 when `hidden`,
otherwise 403 for an authenticated caller and 401 for an anonymous one;
`none` means the request proceeds. -/
def check_permission (permission : Option Bool) (isAuthenticated : Bool)
    (hidden : Bool) : Option Nat :=
  match permission with
  | none => none
  | some can =>
    if can then none
    else if hidden then some 404
    else if isAuthenticated then some 403
    else some 401

/-- The `need_permissions(hidden)` decorator around a handler body; note
its `hidden` parameter defaults to `False` in the source, and every use
is `@need_permissions()`. -/
def need_permissions (hidden : Bool) (env : Env) (body : Resp) : Resp :=
  match check_permission env.perm env.isAuthenticated hidden with
  | some status => Resp.httpAbort status
  | none => body

/-- Body of `index`: renders the register template with
`ItemTypes.get_latest()` and the id. -/
def index_body (env : Env) (item_type_id : Nat) : Resp :=
  Resp.registerPage "WEKO_ITEMTYPES_UI_REGISTER_TEMPLATE" env.getLatest item_type_id

/-- `index` route handler (GET `/`, `/<id>`, `/register`), wrapped in
`@need_permissions()`. -/
def index (env : Env) (item_type_id : Nat) : Resp :=
  need_permissions false env (index_body env item_type_id)

/-- The fixed empty-shape dict assigned to `result` in `render` when the
id is 0 or the lookup finds nothing. -/
def emptyRenderShape : Json :=
  Json.obj [("table_row", Json.arr []),
            ("table_row_map", Json.obj []),
            ("meta_list", Json.obj []),
            ("schemaeditor", Json.obj [("schema", Json.obj [])])]

/-- Python attribute access `result.render` in `render`: an item-type
record has the attribute; a plain dict does not, so the access raises
`AttributeError`. -/
def pyRenderAttr : Sum ItemTypeRec Json → Except PyErr Json
  | Sum.inl r => Except.ok r.render
  | Sum.inr _ => Except.error PyErr.attributeError

/-- Body of `render`: looks the item type up only when `id > 0`, replaces
a missing result by the empty-shape dict, then returns
`jsonify(result.render)`. -/
def render_body (env : Env) (item_type_id : Nat) : Resp :=
  let result : Option ItemTypeRec :=
    if item_type_id > 0 then env.getById item_type_id else none
  let result2 : Sum ItemTypeRec Json :=
    match result with
    | none => Sum.inr emptyRenderShape
    | some r => Sum.inl r
  match pyRenderAttr result2 with
  | Except.ok v => Resp.jsonV v
  | Except.error e => Resp.serverError e

/-- `render` route handler (GET `/<id>/render`), wrapped in
`@need_permissions()`. -/
def render (env : Env) (item_type_id : Nat) : Resp :=
  need_permissions false env (render_body env item_type_id)

/-- Body of `custom_property`: renders the property template with
`ItemTypeProps.get_records([])`. -/
def custom_property_body (env : Env) : Resp :=
  Resp.propertyPage "WEKO_ITEMTYPES_UI_CREATE_PROPERTY" env.getRecords

/-- `custom_property` route handler (GET `/property`), wrapped in
`@need_permissions()`. -/
def custom_property (env : Env) : Resp :=
  need_permissions false env (custom_property_body env)

/-- The `{name, schema, form, forms}` JSON built for one property. -/
def propFields (k : PropRec) : Json :=
  Json.obj [("name", k.name), ("schema", k.schema),
            ("form", k.form), ("forms", k.forms)]

/-- Body of `get_property_list`: a JSON object keyed by property id
(jsonify stringifies the integer keys), built from all records. -/
def get_property_list_body (env : Env) : Resp :=
  Resp.jsonV (Json.obj (env.getRecords.map (fun k => (toString k.id, propFields k))))

/-- `get_property_list` route handler (GET `/property/list`), wrapped in
`@need_permissions()`. -/
def get_property_list (env : Env) : Resp :=
  need_permissions false env (get_property_list_body env)

/-- Body of `get_property`: fetches one record and reads `prop.id`,
`prop.name`, ... — when `get_record` returns `None`, the very first
attribute access `prop.id` raises `AttributeError`. -/
def get_property_body (env : Env) (property_id : Nat) : Resp :=
  match env.getRecord property_id with
  | none => Resp.serverError PyErr.attributeError
  | some p =>
      Resp.jsonV (Json.obj [("id", Json.num p.id), ("name", p.name),
                            ("schema", p.schema), ("form", p.form),
                            ("forms", p.forms)])

/-- `get_property` route handler (GET `/property/<id>`), wrapped in
`@need_permissions()`. -/
def get_property (env : Env) (property_id : Nat) : Resp :=
  need_permissions false env (get_property_body env property_id)

/-- `mapping_index` route handler (GET `/mapping`, `/mapping/<id>`); it
carries no permission decorator.  No item types at all renders the error
template; an unresolved id redirects to the first item type; otherwise
the mapping page is rendered with `json.dumps` of the current mapping. -/
def mapping_index (env : Env) (ItemTypeID : Nat) : Resp :=
  match env.getAll with
  | none => Resp.page "WEKO_ITEMTYPES_UI_ERROR_TEMPLATE"
  | some lists =>
    match lists with
    | [] => Resp.page "WEKO_ITEMTYPES_UI_ERROR_TEMPLATE"
    | first :: _ =>
      match env.getById ItemTypeID with
      | none => Resp.redirectTo first.id
      | some _ =>
        Resp.mappingPage "WEKO_ITEMTYPES_UI_MAPPING_TEMPLATE" lists
          (env.dumps (env.mappingGetRecord ItemTypeID)) ItemTypeID

/-- An HTTP request to a POST handler: the `Content-Type` header and the
parsed JSON body (`request.get_json()`). -/
structure Request where
  contentType : String
  body : Json

/-- The `try` block of `register`: evaluates the keyword arguments of
`ItemTypes.update` (the chained `.get` calls can raise), performs the
update, rebinds `item_type_id` to `record.model.id` when it was 0, then
`Mapping.create` and `db.session.commit()`.  An error carries the session
state at the moment the exception is raised; success carries the final
state and the (possibly rebound) id. -/
def register_try (env : Env) (data : Json) (item_type_id : Nat)
    (st : DbState) : Except (PyErr × DbState) (DbState × Nat) :=
  match optGet2 data "table_row_map" "name" with
  | Except.error e => Except.error (e, st)
  | Except.ok name =>
  match optGet2 data "table_row_map" "schema" with
  | Except.error e => Except.error (e, st)
  | Except.ok schema =>
  match optGet2 data "table_row_map" "form" with
  | Except.error e => Except.error (e, st)
  | Except.ok form =>
    let upd := DbOp.itemTypeUpdate item_type_id name schema form data
    match env.updateResult with
    | Except.error e =>
        Except.error (e, { st with calls := st.calls ++ [DbCall.op upd] })
    | Except.ok newId =>
      let st1 := { st with pending := st.pending ++ [upd],
                           calls := st.calls ++ [DbCall.op upd] }
      let item_type_id2 := if item_type_id == 0 then newId else item_type_id
      match optGet2 data "table_row_map" "mapping" with
      | Except.error e => Except.error (e, st1)
      | Except.ok mapping =>
        let mc := DbOp.mappingCreate (some (Json.num item_type_id2)) mapping
        match env.mappingCreateResult with
        | Except.error e =>
            Except.error (e, { st1 with calls := st1.calls ++ [DbCall.op mc] })
        | Except.ok _ =>
          let st2 := { st1 with pending := st1.pending ++ [mc],
                                calls := st1.calls ++ [DbCall.op mc] }
          match env.commitResult with
          | Except.error e =>
              Except.error (e, { st2 with calls := st2.calls ++ [DbCall.commit] })
          | Except.ok _ =>
              Except.ok ({ st2 with committed := st2.committed ++ st2.pending,
                                    pending := [],
                                    calls := st2.calls ++ [DbCall.commit] },
                         item_type_id2)

/-- `register` route handler (POST `/register`, `/<id>/register`); no
permission decorator.  A content type other than `application/json`
answers `Header Error` before any data-layer call; a bare `except:`
around the body rolls back and answers `Fail`; otherwise `Success`. -/
def register (env : Env) (req : Request) (item_type_id : Nat)
    (st : DbState) : Resp × DbState :=
  if req.contentType ≠ "application/json" then (Resp.jsonMsg "Header Error", st)
  else
    match register_try env req.body item_type_id st with
    | Except.error (_, st') => (Resp.jsonMsg "Fail", sessionRollback st')
    | Except.ok (st', _) => (Resp.jsonMsg "Success", st')

/-- The `try` block of `custom_property_new`: evaluates the `data.get`
arguments (raising only when the body is not a dict), performs
`ItemTypeProps.create` and `db.session.commit()`. -/
def custom_property_new_try (env : Env) (data : Json) (property_id : Nat)
    (st : DbState) : Except (PyErr × DbState) DbState :=
  match dictGet data "name" with
  | Except.error e => Except.error (e, st)
  | Except.ok name =>
  match dictGet data "schema" with
  | Except.error e => Except.error (e, st)
  | Except.ok schema =>
  match dictGet data "form1" with
  | Except.error e => Except.error (e, st)
  | Except.ok form1 =>
  match dictGet data "form2" with
  | Except.error e => Except.error (e, st)
  | Except.ok form2 =>
    let pc := DbOp.propCreate property_id name schema form1 form2
    match env.propCreateResult with
    | Except.error e =>
        Except.error (e, { st with calls := st.calls ++ [DbCall.op pc] })
    | Except.ok _ =>
      let st1 := { st with pending := st.pending ++ [pc],
                           calls := st.calls ++ [DbCall.op pc] }
      match env.commitResult with
      | Except.error e =>
          Except.error (e, { st1 with calls := st1.calls ++ [DbCall.commit] })
      | Except.ok _ =>
          Except.ok { st1 with committed := st1.committed ++ st1.pending,
                               pending := [],
                               calls := st1.calls ++ [DbCall.commit] }

/-- `custom_property_new` route handler (POST `/property`,
`/property/<id>`); no permission decorator; same content-type check and
commit/rollback pattern as `register` (its `except Exception` clause also
logs the exception, which is not observable here). -/
def custom_property_new (env : Env) (req : Request) (property_id : Nat)
    (st : DbState) : Resp × DbState :=
  if req.contentType ≠ "application/json" then (Resp.jsonMsg "Header Error", st)
  else
    match custom_property_new_try env req.body property_id st with
    | Except.error (_, st') => (Resp.jsonMsg "Fail", sessionRollback st')
    | Except.ok st' => (Resp.jsonMsg "Success", st')

/-- The `try` block of `mapping_register`: evaluates
`data.get('item_type_id')`, then `json.loads(data.get('mapping'))`
(raising `TypeError` when the value is not a string), performs
`Mapping.create` and `db.session.commit()`. -/
def mapping_register_try (env : Env) (data : Json) (st : DbState) :
    Except (PyErr × DbState) DbState :=
  match dictGet data "item_type_id" with
  | Except.error e => Except.error (e, st)
  | Except.ok itemTypeId =>
  match dictGet data "mapping" with
  | Except.error e => Except.error (e, st)
  | Except.ok mappingStr =>
  match pyLoads env.loads mappingStr with
  | Except.error e => Except.error (e, st)
  | Except.ok parsed =>
    let mc := DbOp.mappingCreate itemTypeId parsed
    match env.mappingCreateResult with
    | Except.error e =>
        Except.error (e, { st with calls := st.calls ++ [DbCall.op mc] })
    | Except.ok _ =>
      let st1 := { st with pending := st.pending ++ [mc],
                           calls := st.calls ++ [DbCall.op mc] }
      match env.commitResult with
      | Except.error e =>
          Except.error (e, { st1 with calls := st1.calls ++ [DbCall.commit] })
      | Except.ok _ =>
          Except.ok { st1 with committed := st1.committed ++ st1.pending,
                               pending := [],
                               calls := st1.calls ++ [DbCall.commit] }

/-- `mapping_register` route handler (POST `/mapping`); no permission
decorator; same content-type check and commit/rollback pattern. -/
def mapping_register (env : Env) (req : Request) (st : DbState) :
    Resp × DbState :=
  if req.contentType ≠ "application/json" then (Resp.jsonMsg "Header Error", st)
  else
    match mapping_register_try env req.body st with
    | Except.error (_, st') => (Resp.jsonMsg "Fail", sessionRollback st')
    | Except.ok st' => (Resp.jsonMsg "Success", st')

/-! Concrete instances used to evaluate the handlers on closed inputs. -/

/-- A session state with nothing committed, nothing pending, no calls. -/
def emptyDb : DbState := { committed := [], pending := [], calls := [] }

/-- A concrete environment: no permission factory, anonymous caller,
empty data layer, every mutating call succeeding. -/
def baseEnv : Env where
  perm := none
  isAuthenticated := false
  getLatest := []
  getById := fun _ => none
  getAll := none
  getRecords := []
  getRecord := fun _ => none
  mappingGetRecord := fun _ => none
  updateResult := Except.ok 1
  mappingCreateResult := Except.ok ()
  propCreateResult := Except.ok ()
  commitResult := Except.ok ()
  loads := fun _ => Except.error PyErr.valueError
  dumps := fun _ => ""

/-! Theorems settling the claims. -/

/-- Claim C1 (the code contradicts it): on the render endpoint, when the
id is 0 or the lookup returns `None`, the handler does not answer the
fixed empty-shape JSON document.  The source assigns the empty-shape
plain dict to `result` and then evaluates `result.render`; a dict has no
`render` attribute, so the access raises `AttributeError` and the request
ends in an uncaught 500, never a normal JSON response. -/
theorem C1_render_missing_raises (env : Env) (h : env.perm = none) :
    render env 0 = Resp.serverError PyErr.attributeError ∧
    ∀ id, env.getById id = none →
      render env id = Resp.serverError PyErr.attributeError := by
  constructor
  · simp [render, need_permissions, check_permission, h, render_body,
          pyRenderAttr]
  · intro id hid
    by_cases hpos : id > 0
    · simp [render, need_permissions, check_permission, h, render_body,
            pyRenderAttr, hid, hpos]
    · simp [render, need_permissions, check_permission, h, render_body,
            pyRenderAttr, hpos]

/-- Witness for C1 at a concrete environment and id 0. -/
theorem C1_render_missing_raises_witness :
    render baseEnv 0 = Resp.serverError PyErr.attributeError ∧
    render baseEnv 7 = Resp.serverError PyErr.attributeError :=
  ⟨(C1_render_missing_raises baseEnv rfl).1,
   (C1_render_missing_raises baseEnv rfl).2 7 rfl⟩

/-- Claim C2 counterexample: on the permission-gated GET routes a falsy
authorization does not give a 404.  `need_permissions` defaults `hidden`
to `False` (every use is `@need_permissions()`), so `check_permission`
aborts with 401 for an anonymous caller (403 for an authenticated one),
never 404. -/
theorem C2_perm_denied_401_not_404 :
    index { baseEnv with perm := some false } 0 = Resp.httpAbort 401 ∧
    Resp.httpAbort 401 ≠ Resp.httpAbort 404 := by
  refine ⟨rfl, ?_⟩
  simp

/-- Claim C2 as amended: on the permission-gated GET routes (`index`,
`render`, `custom_property`, `get_property_list`, `get_property`), a
falsy authorization aborts the request with 403 when the caller is
authenticated and with 401 otherwise — not 404, because the decorator's
`hidden` flag defaults to `False`. -/
theorem C2_amended_perm_denied_aborts (env : Env) (id : Nat)
    (h : env.perm = some false) :
    index env id = Resp.httpAbort (if env.isAuthenticated then 403 else 401) ∧
    render env id = Resp.httpAbort (if env.isAuthenticated then 403 else 401) ∧
    custom_property env = Resp.httpAbort (if env.isAuthenticated then 403 else 401) ∧
    get_property_list env = Resp.httpAbort (if env.isAuthenticated then 403 else 401) ∧
    get_property env id = Resp.httpAbort (if env.isAuthenticated then 403 else 401) := by
  cases hauth : env.isAuthenticated <;>
    simp [index, render, custom_property, get_property_list, get_property,
          need_permissions, check_permission, h, hauth]

/-- Witness for the amended C2 at a concrete denying environment. -/
theorem C2_amended_perm_denied_aborts_witness :
    index { baseEnv with perm := some false } 0
      = Resp.httpAbort (if ({ baseEnv with perm := some false } : Env).isAuthenticated then 403 else 401) :=
  (C2_amended_perm_denied_aborts { baseEnv with perm := some false } 0 rfl).1

/-- Claim C4: on each of the three write endpoints, a content type other
than `application/json` answers `Header Error` and leaves the session
state — committed, pending, and the call log — untouched: no data-layer
call, no commit, no rollback happens. -/
theorem C4_header_error_no_data_call (env : Env) (req : Request)
    (st : DbState) (id : Nat)
    (h : req.contentType ≠ "application/json") :
    register env req id st = (Resp.jsonMsg "Header Error", st) ∧
    custom_property_new env req id st = (Resp.jsonMsg "Header Error", st) ∧
    mapping_register env req st = (Resp.jsonMsg "Header Error", st) := by
  refine ⟨?_, ?_, ?_⟩ <;>
    simp [register, custom_property_new, mapping_register, h]

/-- Witness for C4 with a `text/plain` request. -/
theorem C4_header_error_no_data_call_witness :
    register baseEnv { contentType := "text/plain", body := Json.obj [] } 0 emptyDb
      = (Resp.jsonMsg "Header Error", emptyDb) ∧
    custom_property_new baseEnv { contentType := "text/plain", body := Json.obj [] } 0 emptyDb
      = (Resp.jsonMsg "Header Error", emptyDb) ∧
    mapping_register baseEnv { contentType := "text/plain", body := Json.obj [] } emptyDb
      = (Resp.jsonMsg "Header Error", emptyDb) :=
  C4_header_error_no_data_call baseEnv
    { contentType := "text/plain", body := Json.obj [] } emptyDb 0 (by decide)

/-- Claim C9: none of the three write handlers consults the permission
factory or the authentication state — changing only those two fields of
the environment (in particular to a denying factory and an anonymous
caller) changes neither the response nor the session-state effect of
`register`, `custom_property_new` or `mapping_register`. -/
theorem C9_write_handlers_ignore_permissions (env : Env) (p : Option Bool)
    (a : Bool) (req : Request) (st : DbState) (id : Nat) :
    register { env with perm := p, isAuthenticated := a } req id st
      = register env req id st ∧
    custom_property_new { env with perm := p, isAuthenticated := a } req id st
      = custom_property_new env req id st ∧
    mapping_register { env with perm := p, isAuthenticated := a } req st
      = mapping_register env req st := by
  cases env
  exact ⟨rfl, rfl, rfl⟩

/-- Claim C6 counterexample: a missing entity on a read path can end in
an error.  With `ItemTypeProps.get_record` returning `None`, the
`get_property` handler evaluates `prop.id` on `None`, which raises
`AttributeError` — an uncaught 500, not an empty-shape default or a
redirect. -/
theorem C6_get_property_missing_errors :
    get_property { baseEnv with perm := some true } 5
      = Resp.serverError PyErr.attributeError ∧
    (Resp.serverError PyErr.attributeError).isServerError = true :=
  ⟨rfl, rfl⟩

/-- Claim C6 as amended: on the read paths, `mapping_index` never raises
(missing entities give the error template or a redirect) and
`get_property_list` answers the empty JSON object for an empty
collection; but `get_property` on a missing record and `render` on id 0
or a missing record raise an uncaught `AttributeError`. -/
theorem C6_amended_read_paths (env : Env) (id : Nat) (h : env.perm = none) :
    (mapping_index env id).isServerError = false ∧
    (env.getRecords = [] → get_property_list env = Resp.jsonV (Json.obj [])) ∧
    (env.getRecord id = none →
      get_property env id = Resp.serverError PyErr.attributeError) ∧
    ((id = 0 ∨ env.getById id = none) →
      render env id = Resp.serverError PyErr.attributeError) := by
  refine ⟨?_, ?_, ?_, ?_⟩
  · rcases hga : env.getAll with _ | ⟨_ | ⟨first, rest⟩⟩
    · simp [mapping_index, hga, Resp.isServerError]
    · simp [mapping_index, hga, Resp.isServerError]
    · rcases hgb : env.getById id with _ | it <;>
        simp [mapping_index, hga, hgb, Resp.isServerError]
  · intro hrec
    simp [get_property_list, need_permissions, check_permission, h,
          get_property_list_body, hrec]
  · intro hrec
    simp [get_property, need_permissions, check_permission, h,
          get_property_body, hrec]
  · intro hid
    rcases hid with hid | hid
    · subst hid
      simp [render, need_permissions, check_permission, h, render_body,
            pyRenderAttr]
    · by_cases hpos : id > 0
      · simp [render, need_permissions, check_permission, h, render_body,
              pyRenderAttr, hid, hpos]
      · simp [render, need_permissions, check_permission, h, render_body,
              pyRenderAttr, hpos]

/-- Witness for the amended C6 at a concrete environment. -/
theorem C6_amended_read_paths_witness :
    (mapping_index baseEnv 0).isServerError = false ∧
    get_property_list baseEnv = Resp.jsonV (Json.obj []) ∧
    get_property baseEnv 0 = Resp.serverError PyErr.attributeError :=
  ⟨(C6_amended_read_paths baseEnv 0 rfl).1,
   (C6_amended_read_paths baseEnv 0 rfl).2.1 rfl,
   (C6_amended_read_paths baseEnv 0 rfl).2.2.1 rfl⟩

/-- Claim C7: `mapping_index` renders the error template when
`ItemTypes.get_all` answers `None` or the empty list; redirects to the
first listed item type when the requested id does not resolve; and
otherwise renders the mapping page with `json.dumps` of the current
mapping for that id. -/
theorem C7_mapping_index_branches (env : Env) (id : Nat) :
    ((env.getAll = none ∨ env.getAll = some []) →
      mapping_index env id = Resp.page "WEKO_ITEMTYPES_UI_ERROR_TEMPLATE") ∧
    (∀ first rest, env.getAll = some (first :: rest) → env.getById id = none →
      mapping_index env id = Resp.redirectTo first.id) ∧
    (∀ first rest it, env.getAll = some (first :: rest) →
      env.getById id = some it →
      mapping_index env id =
        Resp.mappingPage "WEKO_ITEMTYPES_UI_MAPPING_TEMPLATE" (first :: rest)
          (env.dumps (env.mappingGetRecord id)) id) := by
  refine ⟨?_, ?_, ?_⟩
  · rintro (hga | hga) <;> simp [mapping_index, hga]
  · intro first rest hga hgb
    simp [mapping_index, hga, hgb]
  · intro first rest it hga hgb
    simp [mapping_index, hga, hgb]

/-- Witness for C7: the three branches at concrete environments. -/
theorem C7_mapping_index_branches_witness :
    mapping_index baseEnv 0 = Resp.page "WEKO_ITEMTYPES_UI_ERROR_TEMPLATE" ∧
    mapping_index
      { baseEnv with getAll := some [{ id := 3, render := Json.null }] } 9
      = Resp.redirectTo 3 ∧
    mapping_index
      { baseEnv with getAll := some [{ id := 3, render := Json.null }],
                     getById := fun _ => some { id := 3, render := Json.null } } 3
      = Resp.mappingPage "WEKO_ITEMTYPES_UI_MAPPING_TEMPLATE"
          [{ id := 3, render := Json.null }] "" 3 :=
  ⟨(C7_mapping_index_branches baseEnv 0).1 (Or.inl rfl),
   (C7_mapping_index_branches
      { baseEnv with getAll := some [{ id := 3, render := Json.null }] } 9).2.1
     { id := 3, render := Json.null } [] rfl rfl,
   (C7_mapping_index_branches
      { baseEnv with getAll := some [{ id := 3, render := Json.null }],
                     getById := fun _ => some { id := 3, render := Json.null } } 3).2.2
     { id := 3, render := Json.null } [] { id := 3, render := Json.null } rfl rfl⟩

/-- Claim C8: `mapping_register` with correct content type and a body
whose `mapping` field is a JSON-encoded string stores the parsed object,
not the string: `Mapping.create` receives the `item_type_id` value and
the parse result, the transaction is committed, and the response is
`Success`. -/
theorem C8_mapping_register_stores_parsed (env : Env) (st : DbState)
    (fs : List (String × Json)) (itid : Json) (s : String) (m : Json)
    (hit : jsonLookup fs "item_type_id" = some itid)
    (hm : jsonLookup fs "mapping" = some (Json.str s))
    (hl : env.loads s = Except.ok (some m))
    (hmc : env.mappingCreateResult = Except.ok ())
    (hcm : env.commitResult = Except.ok ()) :
    mapping_register env { contentType := "application/json", body := Json.obj fs } st =
      (Resp.jsonMsg "Success",
       { committed := st.committed ++
           (st.pending ++ [DbOp.mappingCreate (some itid) (some m)]),
         pending := [],
         calls := st.calls ++
           [DbCall.op (DbOp.mappingCreate (some itid) (some m)),
            DbCall.commit] }) := by
  simp [mapping_register, mapping_register_try, dictGet, hit, hm, pyLoads,
        hl, hmc, hcm]

/-- Witness for C8: the spec's own example, body
`item_type_id = 5, mapping = "\x7b\"a\":1\x7d"`, with a parser mapping
that string to the object with field `a = 1`. -/
theorem C8_mapping_register_stores_parsed_witness :
    mapping_register
      { baseEnv with loads := fun s =>
          if s = "\x7b\"a\":1\x7d" then Except.ok (some (Json.obj [("a", Json.num 1)]))
          else Except.error PyErr.valueError }
      { contentType := "application/json",
        body := Json.obj [("item_type_id", Json.num 5),
                          ("mapping", Json.str "\x7b\"a\":1\x7d")] }
      emptyDb =
      (Resp.jsonMsg "Success",
       { committed := [DbOp.mappingCreate (some (Json.num 5))
                         (some (Json.obj [("a", Json.num 1)]))],
         pending := [],
         calls := [DbCall.op (DbOp.mappingCreate (some (Json.num 5))
                     (some (Json.obj [("a", Json.num 1)]))),
                   DbCall.commit] }) := by
  have h := C8_mapping_register_stores_parsed
    { baseEnv with loads := fun s =>
        if s = "\x7b\"a\":1\x7d" then Except.ok (some (Json.obj [("a", Json.num 1)]))
        else Except.error PyErr.valueError }
    emptyDb
    [("item_type_id", Json.num 5), ("mapping", Json.str "\x7b\"a\":1\x7d")]
    (Json.num 5) "\x7b\"a\":1\x7d" (Json.obj [("a", Json.num 1)])
    rfl rfl (by simp) rfl rfl
  simpa [emptyDb] using h

/-- Claim C10: with correct content type, a `register` body without a
`table_row_map` key makes `data.get('table_row_map').get('name')` raise
(`None.get`) inside the `try`, and a `mapping_register` body without a
string `mapping` value makes `json.loads` raise `TypeError` inside the
`try`; both handlers roll back and answer `Fail` instead of propagating
the exception. -/
theorem C10_missing_keys_fail (env : Env) (st : DbState) (id : Nat)
    (fs fs2 : List (String × Json))
    (h1 : jsonLookup fs "table_row_map" = none)
    (h2 : ∀ s, jsonLookup fs2 "mapping" ≠ some (Json.str s)) :
    register env { contentType := "application/json", body := Json.obj fs } id st
      = (Resp.jsonMsg "Fail", sessionRollback st) ∧
    mapping_register env
      { contentType := "application/json", body := Json.obj fs2 } st
      = (Resp.jsonMsg "Fail", sessionRollback st) := by
  constructor
  · simp [register, register_try, optGet2, dictGet, h1, optGet]
  · rcases hmv : jsonLookup fs2 "mapping" with _ | v
    · simp [mapping_register, mapping_register_try, dictGet, hmv, pyLoads]
    · cases v with
      | str s => exact absurd hmv (h2 s)
      | _ => simp [mapping_register, mapping_register_try, dictGet, hmv, pyLoads]

/-- Witness for C10 with empty JSON object bodies. -/
theorem C10_missing_keys_fail_witness :
    register baseEnv { contentType := "application/json", body := Json.obj [] } 0 emptyDb
      = (Resp.jsonMsg "Fail", sessionRollback emptyDb) ∧
    mapping_register baseEnv { contentType := "application/json", body := Json.obj [] } emptyDb
      = (Resp.jsonMsg "Fail", sessionRollback emptyDb) :=
  C10_missing_keys_fail baseEnv emptyDb 0 [] [] rfl
    (fun s h => by simp [jsonLookup] at h)

/-- An exception inside the `try` of `register` leaves the committed
operations untouched (only `commit` moves pending operations over). -/
theorem register_try_error_committed (env : Env) (data : Json) (id : Nat)
    (st : DbState) (e : PyErr) (st' : DbState)
    (h : register_try env data id st = Except.error (e, st')) :
    st'.committed = st.committed := by
  unfold register_try at h
  repeat' split at h
  all_goals
    first
      | exact Except.noConfusion h
      | (injection h with hpair
         rw [Prod.mk.injEq] at hpair
         obtain ⟨he, hst⟩ := hpair
         subst hst
         rfl)

/-- An exception inside the `try` of `custom_property_new` leaves the
committed operations untouched. -/
theorem custom_property_new_try_error_committed (env : Env) (data : Json)
    (id : Nat) (st : DbState) (e : PyErr) (st' : DbState)
    (h : custom_property_new_try env data id st = Except.error (e, st')) :
    st'.committed = st.committed := by
  unfold custom_property_new_try at h
  repeat' split at h
  all_goals
    first
      | exact Except.noConfusion h
      | (injection h with hpair
         rw [Prod.mk.injEq] at hpair
         obtain ⟨he, hst⟩ := hpair
         subst hst
         rfl)

/-- An exception inside the `try` of `mapping_register` leaves the
committed operations untouched. -/
theorem mapping_register_try_error_committed (env : Env) (data : Json)
    (st : DbState) (e : PyErr) (st' : DbState)
    (h : mapping_register_try env data st = Except.error (e, st')) :
    st'.committed = st.committed := by
  unfold mapping_register_try at h
  repeat' split at h
  all_goals
    first
      | exact Except.noConfusion h
      | (injection h with hpair
         rw [Prod.mk.injEq] at hpair
         obtain ⟨he, hst⟩ := hpair
         subst hst
         rfl)

/-- Reduction of the chained `data.get(k1).get(k2)` when `data.get(k1)`
is a dict. -/
theorem optGet2_of_obj {data : Json} {tfs : List (String × Json)}
    {k1 : String} (h : dictGet data k1 = Except.ok (some (Json.obj tfs)))
    (k2 : String) :
    optGet2 data k1 k2 = Except.ok (jsonLookup tfs k2) := by
  unfold optGet2
  rw [h]
  rfl

/-- Claim C5: on each write endpoint with correct content type, whenever
the `try` body — argument evaluation, the data-layer calls or the commit
— raises an exception, the handler rolls back and answers `Fail`: the
response is exactly `(Fail, sessionRollback st')`, the pending
transaction is emptied, the committed operations are unchanged (no
partial commit), and the session call log ends with the `rollback` call;
and in every outcome the response is `Success` or `Fail`, so the
exception is never re-raised to the client. -/
theorem C5_write_exception_rollback_fail (env : Env) (req : Request)
    (st : DbState) (id : Nat) (h : req.contentType = "application/json") :
    (∀ e st', register_try env req.body id st = Except.error (e, st') →
      register env req id st = (Resp.jsonMsg "Fail", sessionRollback st') ∧
      (register env req id st).2.pending = [] ∧
      (register env req id st).2.committed = st.committed ∧
      (register env req id st).2.calls = st'.calls ++ [DbCall.rollback]) ∧
    ((register env req id st).1 = Resp.jsonMsg "Success" ∨
     (register env req id st).1 = Resp.jsonMsg "Fail") ∧
    (∀ e st', custom_property_new_try env req.body id st = Except.error (e, st') →
      custom_property_new env req id st = (Resp.jsonMsg "Fail", sessionRollback st') ∧
      (custom_property_new env req id st).2.pending = [] ∧
      (custom_property_new env req id st).2.committed = st.committed ∧
      (custom_property_new env req id st).2.calls = st'.calls ++ [DbCall.rollback]) ∧
    ((custom_property_new env req id st).1 = Resp.jsonMsg "Success" ∨
     (custom_property_new env req id st).1 = Resp.jsonMsg "Fail") ∧
    (∀ e st', mapping_register_try env req.body st = Except.error (e, st') →
      mapping_register env req st = (Resp.jsonMsg "Fail", sessionRollback st') ∧
      (mapping_register env req st).2.pending = [] ∧
      (mapping_register env req st).2.committed = st.committed ∧
      (mapping_register env req st).2.calls = st'.calls ++ [DbCall.rollback]) ∧
    ((mapping_register env req st).1 = Resp.jsonMsg "Success" ∨
     (mapping_register env req st).1 = Resp.jsonMsg "Fail") := by
  refine ⟨?_, ?_, ?_, ?_, ?_, ?_⟩
  · intro e st' htry
    have hreg : register env req id st = (Resp.jsonMsg "Fail", sessionRollback st') := by
      simp [register, h, htry]
    rw [hreg]
    exact ⟨rfl, rfl,
           register_try_error_committed env req.body id st e st' htry, rfl⟩
  · rcases htry : register_try env req.body id st with ⟨e, st'⟩ | ⟨st', n⟩
    · exact Or.inr (by simp [register, h, htry])
    · exact Or.inl (by simp [register, h, htry])
  · intro e st' htry
    have hreg : custom_property_new env req id st
        = (Resp.jsonMsg "Fail", sessionRollback st') := by
      simp [custom_property_new, h, htry]
    rw [hreg]
    exact ⟨rfl, rfl,
           custom_property_new_try_error_committed env req.body id st e st' htry,
           rfl⟩
  · rcases htry : custom_property_new_try env req.body id st with ⟨e, st'⟩ | st'
    · exact Or.inr (by simp [custom_property_new, h, htry])
    · exact Or.inl (by simp [custom_property_new, h, htry])
  · intro e st' htry
    have hreg : mapping_register env req st
        = (Resp.jsonMsg "Fail", sessionRollback st') := by
      simp [mapping_register, h, htry]
    rw [hreg]
    exact ⟨rfl, rfl,
           mapping_register_try_error_committed env req.body st e st' htry, rfl⟩
  · rcases htry : mapping_register_try env req.body st with ⟨e, st'⟩ | st'
    · exact Or.inr (by simp [mapping_register, h, htry])
    · exact Or.inl (by simp [mapping_register, h, htry])

/-- Witness for C5: three concrete requests whose `try` bodies raise
(`None.get` in `register`, `.get` on a non-dict body in
`custom_property_new`, `json.loads(None)` in `mapping_register`); each
handler answers `Fail` after a rollback. -/
theorem C5_write_exception_rollback_fail_witness :
    register baseEnv { contentType := "application/json", body := Json.obj [] } 0 emptyDb
      = (Resp.jsonMsg "Fail", sessionRollback emptyDb) ∧
    custom_property_new baseEnv { contentType := "application/json", body := Json.arr [] } 0 emptyDb
      = (Resp.jsonMsg "Fail", sessionRollback emptyDb) ∧
    mapping_register baseEnv { contentType := "application/json", body := Json.obj [] } emptyDb
      = (Resp.jsonMsg "Fail", sessionRollback emptyDb) :=
  ⟨((C5_write_exception_rollback_fail baseEnv
      { contentType := "application/json", body := Json.obj [] } emptyDb 0 rfl).1
      PyErr.attributeError emptyDb rfl).1,
   ((C5_write_exception_rollback_fail baseEnv
      { contentType := "application/json", body := Json.arr [] } emptyDb 0 rfl).2.2.1
      PyErr.attributeError emptyDb rfl).1,
   ((C5_write_exception_rollback_fail baseEnv
      { contentType := "application/json", body := Json.obj [] } emptyDb 0 rfl).2.2.2.2.1
      PyErr.typeError emptyDb rfl).1⟩

/-- Claim C3: `register` with id 0, correct content type and a dict under
`table_row_map` creates the item type and its mapping — keyed by the
newly created record's id — in one transaction: when both `Mapping.create`
and the commit succeed, both operations land in the committed list
together; when either raises, the response is `Fail` and the committed
list is exactly what it was before the request (the item-type update is
rolled back with everything else, no partial state). -/
theorem C3_register_new_atomic (env : Env) (req : Request) (st : DbState)
    (tfs : List (String × Json)) (newId : Nat)
    (hct : req.contentType = "application/json")
    (htrm : dictGet req.body "table_row_map" = Except.ok (some (Json.obj tfs)))
    (hupd : env.updateResult = Except.ok newId) :
    (env.mappingCreateResult = Except.ok () → env.commitResult = Except.ok () →
      register env req 0 st =
        (Resp.jsonMsg "Success",
         { committed := st.committed ++ (st.pending ++
             [DbOp.itemTypeUpdate 0 (jsonLookup tfs "name")
                (jsonLookup tfs "schema") (jsonLookup tfs "form") req.body,
              DbOp.mappingCreate (some (Json.num newId)) (jsonLookup tfs "mapping")]),
           pending := [],
           calls := st.calls ++
             [DbCall.op (DbOp.itemTypeUpdate 0 (jsonLookup tfs "name")
                (jsonLookup tfs "schema") (jsonLookup tfs "form") req.body),
              DbCall.op (DbOp.mappingCreate (some (Json.num newId))
                (jsonLookup tfs "mapping")),
              DbCall.commit] })) ∧
    ((env.mappingCreateResult ≠ Except.ok () ∨ env.commitResult ≠ Except.ok ()) →
      (register env req 0 st).1 = Resp.jsonMsg "Fail" ∧
      (register env req 0 st).2.committed = st.committed ∧
      (register env req 0 st).2.pending = []) := by
  constructor
  · intro hmc hcm
    simp [register, hct, register_try, optGet2_of_obj htrm, hupd, hmc, hcm]
  · intro hbad
    rcases hmc : env.mappingCreateResult with emc | u
    · simp [register, hct, register_try, optGet2_of_obj htrm, hupd, hmc,
            sessionRollback]
    · cases u
      rcases hcm : env.commitResult with ecm | u2
      · simp [register, hct, register_try, optGet2_of_obj htrm, hupd, hmc,
              hcm, sessionRollback]
      · cases u2
        rcases hbad with hb | hb
        · exact absurd hmc hb
        · exact absurd hcm hb

/-- Witness for C3: a concrete new-item-type registration that succeeds. -/
theorem C3_register_new_atomic_witness :
    register baseEnv
      { contentType := "application/json",
        body := Json.obj [("table_row_map", Json.obj [])] } 0 emptyDb =
      (Resp.jsonMsg "Success",
       { committed := emptyDb.committed ++ (emptyDb.pending ++
           [DbOp.itemTypeUpdate 0 (jsonLookup [] "name")
              (jsonLookup [] "schema") (jsonLookup [] "form")
              (Json.obj [("table_row_map", Json.obj [])]),
            DbOp.mappingCreate (some (Json.num 1)) (jsonLookup [] "mapping")]),
         pending := [],
         calls := emptyDb.calls ++
           [DbCall.op (DbOp.itemTypeUpdate 0 (jsonLookup [] "name")
              (jsonLookup [] "schema") (jsonLookup [] "form")
              (Json.obj [("table_row_map", Json.obj [])])),
            DbCall.op (DbOp.mappingCreate (some (Json.num 1))
              (jsonLookup [] "mapping")),
            DbCall.commit] }) :=
  (C3_register_new_atomic baseEnv
    { contentType := "application/json",
      body := Json.obj [("table_row_map", Json.obj [])] }
    emptyDb [] 1 rfl rfl rfl).1 rfl rfl

end WekoItemtypesUI
